import Mathlib

/-!
Shallow embedding of the SPH fluid simulation core of Fluid65 (src/main.cpp).

Real numbers stand in for C `float`s; raymath vector helpers are embedded
componentwise.  The global fixed-size particle array is embedded as a
`List Particle`; each full pass of `updateParticles` writes one field that
the pass itself never reads (density, pressure, colorGradient, acceleration,
and finally velocity/position which depend only on the particle itself), so
the in-place loops of the C++ code are extensionally a `List.map` over the
snapshot taken at the start of the pass.
-/

namespace Fluid65

/-- 3D vector of real scalars, modelling raylib `Vector3` (three floats). -/
@[ext]
structure Vec3 where
  x : ℝ
  y : ℝ
  z : ℝ

/-- raymath `Vector3Zero`. -/
def Vector3Zero : Vec3 := ⟨0, 0, 0⟩

/-- raymath `Vector3Add`: componentwise sum. -/
def Vector3Add (v1 v2 : Vec3) : Vec3 := ⟨v1.x + v2.x, v1.y + v2.y, v1.z + v2.z⟩

/-- raymath `Vector3Subtract`: componentwise difference. -/
def Vector3Subtract (v1 v2 : Vec3) : Vec3 := ⟨v1.x - v2.x, v1.y - v2.y, v1.z - v2.z⟩

/-- raymath `Vector3Scale`: scalar multiple. -/
def Vector3Scale (v : Vec3) (s : ℝ) : Vec3 := ⟨v.x * s, v.y * s, v.z * s⟩

/-- raymath `Vector3Negate`. -/
def Vector3Negate (v : Vec3) : Vec3 := ⟨-v.x, -v.y, -v.z⟩

/-- raymath `Vector3DotProduct`. -/
def Vector3DotProduct (v1 v2 : Vec3) : ℝ := v1.x * v2.x + v1.y * v2.y + v1.z * v2.z

/-- raymath `Vector3Length`: `sqrtf(x*x + y*y + z*z)`. -/
noncomputable def Vector3Length (v : Vec3) : ℝ :=
  Real.sqrt (v.x * v.x + v.y * v.y + v.z * v.z)

/-- raymath `Vector3Normalize`: divides by the length when it is nonzero and
returns the zero vector otherwise (over the reals a vector of length zero is
the zero vector, so both historical raymath variants coincide here). -/
noncomputable def Vector3Normalize (v : Vec3) : Vec3 :=
  if Vector3Length v = 0 then Vector3Zero else Vector3Scale v (1 / Vector3Length v)

/-- raymath `Vector3Reflect`: `v - 2*(v.n)*n`. -/
def Vector3Reflect (v normal : Vec3) : Vec3 :=
  let d := Vector3DotProduct v normal
  ⟨v.x - 2 * normal.x * d, v.y - 2 * normal.y * d, v.z - 2 * normal.z * d⟩

/-- raylib `PI`. -/
noncomputable def PI : ℝ := Real.pi

/-- main.cpp line 18: `const float sphereSize = 40.0`. -/
def sphereSize : ℝ := 40

/-- main.cpp line 20: `const float sampleRadius = 12.0f`. -/
def sampleRadius : ℝ := 12

/-- main.cpp line 22: `const float restDensity = 0.0001f`. -/
def restDensity : ℝ := 0.0001

/-- main.cpp line 24: `const float gasConstant = 100.0f`. -/
def gasConstant : ℝ := 100

/-- main.cpp line 26: `const float viscosity = 0.01f`. -/
def viscosity : ℝ := 0.01

/-- main.cpp line 28: `const float surfaceTension = 50.0f`. -/
def surfaceTension : ℝ := 50

/-- main.cpp lines 30-39: the `Particle` struct. -/
structure Particle where
  position : Vec3
  velocity : Vec3
  acceleration : Vec3
  mass : ℝ
  density : ℝ
  pressure : ℝ
  colorGradient : Vec3

/-- main.cpp lines 66-73: the poly6 kernel.  The local variable `magnitude`
is inlined as `Vector3Length r`. -/
noncomputable def W_poly6 (r : Vec3) (h : ℝ) : ℝ :=
  if 0 ≤ Vector3Length r ∧ Vector3Length r ≤ h then
    315 / (64 * PI * h ^ 9) * (h * h - Vector3Length r * Vector3Length r) ^ 3
  else 0

/-- main.cpp lines 75-82: radial derivative of the poly6 kernel. -/
noncomputable def W_poly6_Gradient (r : Vec3) (h : ℝ) : ℝ :=
  if 0 ≤ Vector3Length r ∧ Vector3Length r ≤ h then
    315 / (64 * PI * h ^ 9) * (-2 * Vector3Length r) * 3 *
      (h * h - Vector3Length r * Vector3Length r) ^ 2
  else 0

/-- main.cpp lines 84-91: Laplacian form of the poly6 kernel. -/
noncomputable def W_poly6_Laplacian (r : Vec3) (h : ℝ) : ℝ :=
  if 0 ≤ Vector3Length r ∧ Vector3Length r ≤ h then
    315 / (64 * PI * h ^ 9) * 6 * (h * h - Vector3Length r * Vector3Length r) *
      (5 * Vector3Length r * Vector3Length r - h * h)
  else 0

/-- main.cpp lines 94-101: Laplacian of the viscosity kernel. -/
noncomputable def W_viscosity_Laplacian (r : Vec3) (h : ℝ) : ℝ :=
  if 0 ≤ Vector3Length r ∧ Vector3Length r ≤ h then
    45 / (PI * h ^ 6) * (h - Vector3Length r)
  else 0

/-- main.cpp lines 103-110: the spiky kernel. -/
noncomputable def W_spiky (r : Vec3) (h : ℝ) : ℝ :=
  if 0 ≤ Vector3Length r ∧ Vector3Length r ≤ h then
    15 / (PI * h ^ 6) * (h - Vector3Length r) ^ 3
  else 0

/-- main.cpp lines 112-119: radial derivative of the spiky kernel. -/
noncomputable def W_spiky_Gradient (r : Vec3) (h : ℝ) : ℝ :=
  if 0 ≤ Vector3Length r ∧ Vector3Length r ≤ h then
    15 / (PI * h ^ 6) * (-1) * 3 * (h - Vector3Length r) ^ 2
  else 0

/-- main.cpp lines 121-127: `sampleDensity`, a running sum over the whole
particle array. -/
noncomputable def sampleDensity (ps : List Particle) (particle : Particle) : ℝ :=
  ps.foldl (fun density q =>
    density + q.mass * W_poly6 (Vector3Subtract particle.position q.position) sampleRadius) 0

/-- main.cpp lines 129-132: `samplePressure`, the linear equation of state. -/
noncomputable def samplePressure (particle : Particle) : ℝ :=
  gasConstant * (particle.density - restDensity)

/-- Loop body of main.cpp lines 144-147: the contribution of particle `q` to
`sampleColorGradient particle`. -/
noncomputable def colorGradientTerm (particle q : Particle) : Vec3 :=
  let r := Vector3Subtract q.position particle.position
  Vector3Scale (Vector3Normalize r)
    (q.mass * (1 / q.density) * W_poly6_Gradient r sampleRadius)

/-- main.cpp lines 142-149: `sampleColorGradient`. -/
noncomputable def sampleColorGradient (ps : List Particle) (particle : Particle) : Vec3 :=
  ps.foldl (fun colorGradient q => Vector3Add colorGradient (colorGradientTerm particle q))
    Vector3Zero

/-- main.cpp lines 151-157: `sampleColorDivergence`. -/
noncomputable def sampleColorDivergence (ps : List Particle) (particle : Particle) : Vec3 :=
  ps.foldl (fun colorDivergence q =>
    Vector3Add colorDivergence (Vector3Scale q.colorGradient
      (q.mass * (1 / q.density) *
        W_poly6_Laplacian (Vector3Subtract particle.position q.position) sampleRadius)))
    Vector3Zero

/-- Contribution of particle `q` to `samplePressureForce particle`: the loop
of main.cpp lines 161-164 subtracts the scaled vector from the accumulator,
so the term as it enters the sum is the negation of that scaled vector. -/
noncomputable def pressureForceTerm (particle q : Particle) : Vec3 :=
  let r := Vector3Subtract particle.position q.position
  Vector3Negate (Vector3Scale (Vector3Normalize r)
    (q.mass * (particle.pressure + q.pressure) / (2 * q.density) *
      W_spiky_Gradient r sampleRadius))

/-- main.cpp lines 159-166: `samplePressureForce`, written exactly as the
code accumulates it (a `Vector3Subtract` per neighbour). -/
noncomputable def samplePressureForce (ps : List Particle) (particle : Particle) : Vec3 :=
  ps.foldl (fun pressureForce q =>
    let r := Vector3Subtract particle.position q.position
    Vector3Subtract pressureForce (Vector3Scale (Vector3Normalize r)
      (q.mass * (particle.pressure + q.pressure) / (2 * q.density) *
        W_spiky_Gradient r sampleRadius)))
    Vector3Zero

/-- main.cpp lines 168-174: `sampleViscosityForce`. -/
noncomputable def sampleViscosityForce (ps : List Particle) (particle : Particle) : Vec3 :=
  ps.foldl (fun viscosityForce q =>
    Vector3Add viscosityForce (Vector3Scale (Vector3Subtract q.velocity particle.velocity)
      (viscosity * q.mass * (1 / q.density) *
        W_viscosity_Laplacian (Vector3Subtract particle.position q.position) sampleRadius)))
    Vector3Zero

/-- main.cpp lines 176-179: `sampleSurfaceTractionForce`. -/
noncomputable def sampleSurfaceTractionForce (ps : List Particle) (particle : Particle) : Vec3 :=
  Vector3Scale (Vector3Normalize particle.colorGradient)
    (-surfaceTension * Vector3Length (sampleColorDivergence ps particle))

/-- main.cpp lines 187-189: the four summed force contributions of the
force-accumulation loop. -/
noncomputable def netForce (ps : List Particle) (p : Particle) : Vec3 :=
  Vector3Add
    (Vector3Add
      (Vector3Add (samplePressureForce ps p) (Vector3Scale ⟨0, 1, 0⟩ (-0.1 * p.mass)))
      (sampleViscosityForce ps p))
    (sampleSurfaceTractionForce ps p)

/-- main.cpp line 182: the density pass.  The in-place loop writes only the
`density` field, which `sampleDensity` never reads, so it equals a map over
the pre-pass array. -/
noncomputable def densityPass (ps : List Particle) : List Particle :=
  ps.map fun p => { p with density := sampleDensity ps p }

/-- main.cpp line 183: the pressure pass (reads only the particle's own
density). -/
noncomputable def pressurePass (ps : List Particle) : List Particle :=
  ps.map fun p => { p with pressure := samplePressure p }

/-- main.cpp line 184: the colour-gradient pass (writes only
`colorGradient`, which `sampleColorGradient` never reads). -/
noncomputable def colorGradientPass (ps : List Particle) : List Particle :=
  ps.map fun p => { p with colorGradient := sampleColorGradient ps p }

/-- main.cpp lines 186-191: the force-accumulation pass (writes only
`acceleration`, which none of the samplers read). -/
noncomputable def forcePass (ps : List Particle) : List Particle :=
  ps.map fun p => { p with acceleration := Vector3Scale (netForce ps p) (1 / p.density) }

/-- main.cpp lines 194-198: the spherical boundary handler.  Given the
particle's position and its velocity after the acceleration update, it
returns the (possibly reflected) velocity; it touches nothing else. -/
noncomputable def boundaryVelocity (position velocity : Vec3) : Vec3 :=
  if Vector3Length position ≥ sphereSize - 1 then
    if Vector3DotProduct position velocity > 0 then
      Vector3Scale (Vector3Reflect velocity (Vector3Negate (Vector3Normalize position))) 0.8
    else velocity
  else velocity

/-- main.cpp lines 192-200: one iteration of the integration loop, which
reads only the particle's own fields: velocity gains `acceleration * dt`,
the boundary handler then filters that velocity, and the position update
uses the filtered velocity. -/
noncomputable def integrate (deltaTime : ℝ) (p : Particle) : Particle :=
  let velocity1 := Vector3Add p.velocity (Vector3Scale p.acceleration deltaTime)
  let velocity2 := boundaryVelocity p.position velocity1
  { p with velocity := velocity2,
           position := Vector3Add p.position (Vector3Scale velocity2 deltaTime) }

/-- main.cpp lines 181-201: `updateParticles`, the full simulation step:
density, pressure, colour-gradient and force passes, then integration. -/
noncomputable def updateParticles (deltaTime : ℝ) (ps : List Particle) : List Particle :=
  (forcePass (colorGradientPass (pressurePass (densityPass ps)))).map (integrate deltaTime)

/-- main.cpp line 247: the only mutation of the particle array per frame of
the render loop is `updateParticles(0.04f)`, independent of elapsed time. -/
noncomputable def frameStep (ps : List Particle) : List Particle :=
  updateParticles 0.04 ps

/-- main.cpp lines 219-223: initialization of the particle array.  The
global array is zero-initialized, and the loop assigns only position (from
the random distribution, abstracted here as a given list), velocity and
mass; the derived fields, density included, stay zero and no validation of
any kind is performed. -/
def initParticles (positions : List Vec3) : List Particle :=
  positions.map fun pos =>
    { position := pos, velocity := Vector3Zero, acceleration := Vector3Zero,
      mass := 1, density := 0, pressure := 0, colorGradient := Vector3Zero }

/-- Concrete particle used to instantiate proved theorems: unit mass at the
origin (derived fields as after initialization). -/
def originUnitParticle : Particle :=
  { position := Vector3Zero, velocity := Vector3Zero, acceleration := Vector3Zero,
    mass := 1, density := 0, pressure := 0, colorGradient := Vector3Zero }

/-- Concrete particle at the origin with unit mass, density 1 and pressure 1. -/
def probeParticleA : Particle :=
  { position := Vector3Zero, velocity := Vector3Zero, acceleration := Vector3Zero,
    mass := 1, density := 1, pressure := 1, colorGradient := Vector3Zero }

/-- Concrete particle at `(6,0,0)` with mass 2, density 1 and pressure 1:
same density and pressure as `probeParticleA` but a different mass. -/
def probeParticleB : Particle :=
  { position := ⟨6, 0, 0⟩, velocity := Vector3Zero, acceleration := Vector3Zero,
    mass := 2, density := 1, pressure := 1, colorGradient := Vector3Zero }

/-- Concrete particle at `(6,0,0)` with mass 1, density 1 and pressure 1:
same mass, density and pressure as `probeParticleA`. -/
def probeParticleC : Particle :=
  { position := ⟨6, 0, 0⟩, velocity := Vector3Zero, acceleration := Vector3Zero,
    mass := 1, density := 1, pressure := 1, colorGradient := Vector3Zero }

/-! ## Helper lemmas -/

lemma foldl_add_map_sum (f : Particle → ℝ) (l : List Particle) :
    ∀ a : ℝ, List.foldl (fun s q => s + f q) a l = a + (l.map f).sum := by
  induction l with
  | nil => intro a; simp
  | cons p t ih => intro a; simp only [List.foldl_cons, List.map_cons, List.sum_cons, ih]; ring

lemma map_density_densityPass (ps : List Particle) :
    (densityPass ps).map Particle.density = ps.map fun p => sampleDensity ps p := by
  simp only [densityPass, List.map_map]; rfl

lemma map_density_pressurePass (ps : List Particle) :
    (pressurePass ps).map Particle.density = ps.map Particle.density := by
  simp only [pressurePass, List.map_map]; rfl

lemma map_density_colorGradientPass (ps : List Particle) :
    (colorGradientPass ps).map Particle.density = ps.map Particle.density := by
  simp only [colorGradientPass, List.map_map]; rfl

lemma map_density_forcePass (ps : List Particle) :
    (forcePass ps).map Particle.density = ps.map Particle.density := by
  simp only [forcePass, List.map_map]; rfl

lemma map_density_integrate (dt : ℝ) (l : List Particle) :
    (l.map (integrate dt)).map Particle.density = l.map Particle.density := by
  simp only [List.map_map]; rfl

lemma map_mass_densityPass (ps : List Particle) :
    (densityPass ps).map Particle.mass = ps.map Particle.mass := by
  simp only [densityPass, List.map_map]; rfl

lemma map_mass_pressurePass (ps : List Particle) :
    (pressurePass ps).map Particle.mass = ps.map Particle.mass := by
  simp only [pressurePass, List.map_map]; rfl

lemma map_mass_colorGradientPass (ps : List Particle) :
    (colorGradientPass ps).map Particle.mass = ps.map Particle.mass := by
  simp only [colorGradientPass, List.map_map]; rfl

lemma map_mass_forcePass (ps : List Particle) :
    (forcePass ps).map Particle.mass = ps.map Particle.mass := by
  simp only [forcePass, List.map_map]; rfl

lemma map_mass_integrate (dt : ℝ) (l : List Particle) :
    (l.map (integrate dt)).map Particle.mass = l.map Particle.mass := by
  simp only [List.map_map]; rfl

lemma updateParticles_length (dt : ℝ) (ps : List Particle) :
    (updateParticles dt ps).length = ps.length := by
  simp [updateParticles, forcePass, colorGradientPass, pressurePass, densityPass]

lemma Vector3Subtract_self (v : Vec3) : Vector3Subtract v v = Vector3Zero := by
  ext <;> simp [Vector3Subtract, Vector3Zero]

lemma Vector3Length_zero : Vector3Length Vector3Zero = 0 := by
  simp [Vector3Length, Vector3Zero]

lemma W_poly6_nonneg (r : Vec3) {h : ℝ} (hh : 0 ≤ h) : 0 ≤ W_poly6 r h := by
  unfold W_poly6
  split_ifs with hc
  · refine mul_nonneg (div_nonneg (by norm_num) ?_) (pow_nonneg ?_ 3)
    · exact mul_nonneg (mul_nonneg (by norm_num) (by simp only [PI]; exact Real.pi_pos.le))
        (pow_nonneg hh 9)
    · nlinarith [hc.1, hc.2]
  · exact le_refl 0

lemma W_poly6_pos_of_length_zero (r : Vec3) (hr : Vector3Length r = 0) :
    0 < W_poly6 r sampleRadius := by
  simp only [W_poly6, hr, sampleRadius, PI]
  rw [if_pos (by norm_num)]
  rw [show ((12 : ℝ) * 12 - 0 * 0) = 144 by norm_num]
  positivity

lemma Vector3Length_neg (v : Vec3) : Vector3Length (Vector3Negate v) = Vector3Length v := by
  simp only [Vector3Length, Vector3Negate]
  congr 1
  ring

lemma Vector3Normalize_neg (v : Vec3) :
    Vector3Normalize (Vector3Negate v) = Vector3Negate (Vector3Normalize v) := by
  simp only [Vector3Normalize, Vector3Length_neg]
  split_ifs with h0
  · ext <;> simp [Vector3Zero, Vector3Negate]
  · ext <;> simp [Vector3Scale, Vector3Negate]

lemma Vector3Length_scale (v : Vec3) {s : ℝ} (hs : 0 ≤ s) :
    Vector3Length (Vector3Scale v s) = s * Vector3Length v := by
  simp only [Vector3Length, Vector3Scale]
  rw [show v.x * s * (v.x * s) + v.y * s * (v.y * s) + v.z * s * (v.z * s)
      = (s * s) * (v.x * v.x + v.y * v.y + v.z * v.z) by ring,
    Real.sqrt_mul (mul_self_nonneg s), Real.sqrt_mul_self hs]

lemma Vector3Length_reflect_unit (v n : Vec3)
    (hn : n.x * n.x + n.y * n.y + n.z * n.z = 1) :
    Vector3Length (Vector3Reflect v n) = Vector3Length v := by
  simp only [Vector3Length, Vector3Reflect, Vector3DotProduct]
  congr 1
  linear_combination (4 * (v.x * n.x + v.y * n.y + v.z * n.z) ^ 2) * hn

lemma normalize_sumsq (v : Vec3) (hv : Vector3Length v ≠ 0) :
    (Vector3Normalize v).x * (Vector3Normalize v).x +
      (Vector3Normalize v).y * (Vector3Normalize v).y +
      (Vector3Normalize v).z * (Vector3Normalize v).z = 1 := by
  have hLL : Vector3Length v * Vector3Length v = v.x * v.x + v.y * v.y + v.z * v.z :=
    Real.mul_self_sqrt
      (add_nonneg (add_nonneg (mul_self_nonneg _) (mul_self_nonneg _)) (mul_self_nonneg _))
  simp only [Vector3Normalize, if_neg hv, Vector3Scale]
  field_simp
  linear_combination -hLL

/-! ## Claim theorems -/

/-- Claim C1: the density pass of a simulation step sets every particle's
density to the sum, over all particles of the array (the particle itself
included), of mass times the poly6 kernel of the displacement of the
pre-step positions, at radius `sampleRadius`. -/
theorem density_pass_is_poly6_mass_sum (dt : ℝ) (ps : List Particle) :
    (updateParticles dt ps).map Particle.density =
      ps.map fun p =>
        (ps.map fun q =>
          q.mass * W_poly6 (Vector3Subtract p.position q.position) sampleRadius).sum := by
  simp only [updateParticles]
  rw [map_density_integrate, map_density_forcePass, map_density_colorGradientPass,
    map_density_pressurePass, map_density_densityPass]
  refine List.map_congr_left fun p _ => ?_
  simp only [sampleDensity]
  rw [foldl_add_map_sum (fun q =>
    q.mass * W_poly6 (Vector3Subtract p.position q.position) sampleRadius) ps 0]
  exact zero_add _

/-- Claim C3: during integration, a particle at distance at least
`sphereSize - 1` from the origin whose (acceleration-updated) velocity
points outward gets that velocity replaced by the reflection about the
inward unit normal scaled by 0.8; any other particle's velocity passes
through the handler untouched; and the handler performs no positional
correction — the position update is always exactly `position + velocity*dt`
with the handler's output velocity. -/
theorem boundary_reflects_outward_only (deltaTime : ℝ) (q : Particle) (position velocity : Vec3) :
    (Vector3Length position ≥ sphereSize - 1 → Vector3DotProduct position velocity > 0 →
      boundaryVelocity position velocity =
        Vector3Scale (Vector3Reflect velocity (Vector3Negate (Vector3Normalize position))) 0.8) ∧
    (¬(Vector3Length position ≥ sphereSize - 1 ∧ Vector3DotProduct position velocity > 0) →
      boundaryVelocity position velocity = velocity) ∧
    (integrate deltaTime q).position =
      Vector3Add q.position (Vector3Scale ((integrate deltaTime q).velocity) deltaTime) := by
  refine ⟨fun hb hd => ?_, fun hn => ?_, rfl⟩
  · simp only [boundaryVelocity, if_pos hb, if_pos hd]
  · simp only [boundaryVelocity]
    by_cases h1 : Vector3Length position ≥ sphereSize - 1
    · have h2 : ¬Vector3DotProduct position velocity > 0 := fun h2 => hn ⟨h1, h2⟩
      rw [if_pos h1, if_neg h2]
    · rw [if_neg h1]

/-- Witness for C3: a particle at `(39,0,0)` (distance exactly
`sphereSize - 1`) moving outward along the x axis is reflected. -/
theorem boundary_reflects_outward_only_witness :
    boundaryVelocity ⟨39, 0, 0⟩ ⟨1, 0, 0⟩ =
      Vector3Scale (Vector3Reflect ⟨1, 0, 0⟩ (Vector3Negate (Vector3Normalize ⟨39, 0, 0⟩))) 0.8 :=
  (boundary_reflects_outward_only 1 originUnitParticle ⟨39, 0, 0⟩ ⟨1, 0, 0⟩).1
    (by
      show Real.sqrt (39 * 39 + 0 * 0 + 0 * 0) ≥ 40 - 1
      rw [show (39 : ℝ) * 39 + 0 * 0 + 0 * 0 = 39 * 39 by norm_num,
        Real.sqrt_mul_self (by norm_num : (0 : ℝ) ≤ 39)]
      norm_num)
    (by show (39 : ℝ) * 1 + 0 * 0 + 0 * 0 > 0; norm_num)

/-- Claim C4: one step updates each particle's velocity by
`acceleration * dt`, filters that velocity through the boundary handler,
and only then advances the position with the filtered velocity; and the
frame driver always invokes the step with the fixed time step 0.04. -/
theorem integration_order_and_fixed_dt (dt : ℝ) (ps : List Particle) :
    updateParticles dt ps =
      (forcePass (colorGradientPass (pressurePass (densityPass ps)))).map (fun q =>
        let velocity2 := boundaryVelocity q.position
          (Vector3Add q.velocity (Vector3Scale q.acceleration dt))
        { q with velocity := velocity2,
                 position := Vector3Add q.position (Vector3Scale velocity2 dt) }) ∧
    ∀ qs : List Particle, frameStep qs = updateParticles 0.04 qs :=
  ⟨rfl, fun _ => rfl⟩

/-- Claim C8: the self-term of the colour-gradient sum is exactly the zero
vector: the normalize-of-zero convention yields the zero vector, so its
scalar multiple is the zero vector. -/
theorem color_gradient_self_term_zero (particle : Particle) :
    Vector3Normalize (Vector3Subtract particle.position particle.position) = Vector3Zero ∧
    colorGradientTerm particle particle = Vector3Zero := by
  have hz : Vector3Subtract particle.position particle.position = Vector3Zero := by
    ext <;> simp [Vector3Subtract, Vector3Zero]
  have hlen : Vector3Length Vector3Zero = 0 := by
    simp [Vector3Length, Vector3Zero]
  have hnorm : Vector3Normalize Vector3Zero = Vector3Zero := by
    rw [Vector3Normalize, if_pos hlen]
  refine ⟨by rw [hz, hnorm], ?_⟩
  simp only [colorGradientTerm, hz, hnorm]
  ext <;> simp [Vector3Scale, Vector3Zero]

/-- Claim C9: one simulation step leaves the number of particles and every
particle's mass unchanged (the step writes only the derived fields and the
kinematic state, never mass, and never adds or removes particles). -/
theorem step_preserves_count_and_mass (dt : ℝ) (ps : List Particle) :
    (updateParticles dt ps).length = ps.length ∧
    (updateParticles dt ps).map Particle.mass = ps.map Particle.mass := by
  refine ⟨updateParticles_length dt ps, ?_⟩
  simp only [updateParticles]
  rw [map_mass_integrate, map_mass_forcePass, map_mass_colorGradientPass,
    map_mass_pressurePass, map_mass_densityPass]

/-- Claim C2: for a nonempty particle array with strictly positive masses,
`sampleDensity` of any particle of the array is strictly positive — the
particle's own term contributes `mass * poly6(0, sampleRadius) > 0` and
every other term is nonnegative. -/
theorem sampleDensity_pos (ps : List Particle) (hmass : ∀ q ∈ ps, 0 < q.mass)
    (p : Particle) (hp : p ∈ ps) : 0 < sampleDensity ps p := by
  have hsum : sampleDensity ps p =
      (ps.map fun q =>
        q.mass * W_poly6 (Vector3Subtract p.position q.position) sampleRadius).sum := by
    simp only [sampleDensity]
    rw [foldl_add_map_sum (fun q =>
      q.mass * W_poly6 (Vector3Subtract p.position q.position) sampleRadius) ps 0]
    exact zero_add _
  rw [hsum]
  have hterm : ∀ x ∈ ps.map fun q =>
      q.mass * W_poly6 (Vector3Subtract p.position q.position) sampleRadius, 0 ≤ x := by
    intro x hx
    obtain ⟨q, hq, rfl⟩ := List.mem_map.mp hx
    exact mul_nonneg (hmass q hq).le (W_poly6_nonneg _ (by norm_num [sampleRadius]))
  have hself : 0 < p.mass * W_poly6 (Vector3Subtract p.position p.position) sampleRadius := by
    refine mul_pos (hmass p hp) (W_poly6_pos_of_length_zero _ ?_)
    rw [Vector3Subtract_self, Vector3Length_zero]
  calc (0 : ℝ) < p.mass * W_poly6 (Vector3Subtract p.position p.position) sampleRadius := hself
    _ ≤ _ := List.single_le_sum hterm _ (List.mem_map.mpr ⟨p, hp, rfl⟩)

/-- Witness for C2: a single unit-mass particle at the origin has strictly
positive sampled density. -/
theorem sampleDensity_pos_witness : 0 < sampleDensity [originUnitParticle] originUnitParticle :=
  sampleDensity_pos [originUnitParticle]
    (by
      intro q hq
      simp only [List.mem_singleton] at hq
      rw [hq]
      norm_num [originUnitParticle])
    originUnitParticle (by simp)

/-- Claim C7: each of the six smoothing kernels returns 0 for every
displacement strictly outside the support radius, and evaluates to 0 at the
support boundary `|r| = h`, so each is continuous there. -/
theorem kernels_vanish_at_support_boundary (r : Vec3) (h : ℝ) :
    (Vector3Length r > h →
      W_poly6 r h = 0 ∧ W_poly6_Gradient r h = 0 ∧ W_poly6_Laplacian r h = 0 ∧
      W_viscosity_Laplacian r h = 0 ∧ W_spiky r h = 0 ∧ W_spiky_Gradient r h = 0) ∧
    (Vector3Length r = h →
      W_poly6 r h = 0 ∧ W_poly6_Gradient r h = 0 ∧ W_poly6_Laplacian r h = 0 ∧
      W_viscosity_Laplacian r h = 0 ∧ W_spiky r h = 0 ∧ W_spiky_Gradient r h = 0) := by
  constructor
  · intro hgt
    have hc : ¬(0 ≤ Vector3Length r ∧ Vector3Length r ≤ h) := fun hc =>
      absurd hc.2 (not_le.mpr hgt)
    simp only [W_poly6, W_poly6_Gradient, W_poly6_Laplacian, W_viscosity_Laplacian,
      W_spiky, W_spiky_Gradient, if_neg hc]
    exact ⟨trivial, trivial, trivial, trivial, trivial, trivial⟩
  · intro heq
    have hc : 0 ≤ Vector3Length r ∧ Vector3Length r ≤ h :=
      ⟨Real.sqrt_nonneg _, le_of_eq heq⟩
    simp only [W_poly6, W_poly6_Gradient, W_poly6_Laplacian, W_viscosity_Laplacian,
      W_spiky, W_spiky_Gradient, if_pos hc]
    refine ⟨?_, ?_, ?_, ?_, ?_, ?_⟩ <;> rw [heq] <;> ring

/-- Witness for C7: at radius 12 the poly6 kernel vanishes at the
displacement `(13,0,0)` outside the support, and the spiky-gradient kernel
vanishes at the displacement `(12,0,0)` exactly on the boundary. -/
theorem kernels_vanish_at_support_boundary_witness :
    W_poly6 ⟨13, 0, 0⟩ 12 = 0 ∧ W_spiky_Gradient ⟨12, 0, 0⟩ 12 = 0 :=
  ⟨((kernels_vanish_at_support_boundary ⟨13, 0, 0⟩ 12).1
      (by
        show Real.sqrt (13 * 13 + 0 * 0 + 0 * 0) > 12
        rw [show (13 : ℝ) * 13 + 0 * 0 + 0 * 0 = 13 * 13 by norm_num,
          Real.sqrt_mul_self (by norm_num : (0 : ℝ) ≤ 13)]
        norm_num)).1,
   ((kernels_vanish_at_support_boundary ⟨12, 0, 0⟩ 12).2
      (by
        show Real.sqrt (12 * 12 + 0 * 0 + 0 * 0) = 12
        rw [show (12 : ℝ) * 12 + 0 * 0 + 0 * 0 = 12 * 12 by norm_num,
          Real.sqrt_mul_self (by norm_num : (0 : ℝ) ≤ 12)])).2.2.2.2.2⟩

/-- Claim C6 evidence: initialization leaves every derived field at zero —
in particular density is 0, below any positive epsilon — and performs no
validation; the frame step then runs on that state unconditionally (it
returns a full next state, there is no rejection path anywhere in the
code). -/
theorem init_accepts_zero_density_state :
    initParticles [Vector3Zero] =
      [{ position := Vector3Zero, velocity := Vector3Zero, acceleration := Vector3Zero,
         mass := 1, density := 0, pressure := 0, colorGradient := Vector3Zero }] ∧
    (frameStep (initParticles [Vector3Zero])).length = 1 := by
  refine ⟨rfl, ?_⟩
  show (updateParticles 0.04 (initParticles [Vector3Zero])).length = 1
  rw [updateParticles_length]
  rfl

/-- Claim C10: whenever the boundary handler reflects a velocity (distance
at the threshold and outward radial velocity), the resulting speed is
exactly 0.8 times the incoming speed, since reflection about the inward
unit normal preserves the Euclidean norm. -/
theorem reflection_scales_speed (position velocity : Vec3)
    (hb : Vector3Length position ≥ sphereSize - 1)
    (hd : Vector3DotProduct position velocity > 0) :
    Vector3Length (boundaryVelocity position velocity) = 0.8 * Vector3Length velocity := by
  have hpos : Vector3Length position ≠ 0 := by
    intro h0
    rw [h0] at hb
    norm_num [sphereSize] at hb
  have h1 : (Vector3Negate (Vector3Normalize position)).x *
        (Vector3Negate (Vector3Normalize position)).x +
      (Vector3Negate (Vector3Normalize position)).y *
        (Vector3Negate (Vector3Normalize position)).y +
      (Vector3Negate (Vector3Normalize position)).z *
        (Vector3Negate (Vector3Normalize position)).z = 1 := by
    have h2 := normalize_sumsq position hpos
    simp only [Vector3Negate]
    linear_combination h2
  simp only [boundaryVelocity, if_pos hb, if_pos hd]
  rw [Vector3Length_scale _ (by norm_num : (0 : ℝ) ≤ 0.8),
    Vector3Length_reflect_unit velocity _ h1]

/-- Witness for C10: the reflected particle of the C3 configuration leaves
the handler with exactly 0.8 of its incoming speed. -/
theorem reflection_scales_speed_witness :
    Vector3Length (boundaryVelocity ⟨39, 0, 0⟩ ⟨1, 0, 0⟩) =
      0.8 * Vector3Length ⟨1, 0, 0⟩ :=
  reflection_scales_speed ⟨39, 0, 0⟩ ⟨1, 0, 0⟩
    (by
      show Real.sqrt (39 * 39 + 0 * 0 + 0 * 0) ≥ 40 - 1
      rw [show (39 : ℝ) * 39 + 0 * 0 + 0 * 0 = 39 * 39 by norm_num,
        Real.sqrt_mul_self (by norm_num : (0 : ℝ) ≤ 39)]
      norm_num)
    (by show (39 : ℝ) * 1 + 0 * 0 + 0 * 0 > 0; norm_num)

/-- Claim C5, amended: the pairwise pressure-force terms are exact
negations of each other for two distinct particles with equal density,
equal pressure AND equal mass (the code weights the term by the mass of
the neighbour, so the masses must also agree). -/
theorem pressure_force_term_antisymmetric (i j : Particle)
    (hne : i ≠ j) (hd : i.density = j.density) (hp : i.pressure = j.pressure)
    (hm : i.mass = j.mass) :
    pressureForceTerm i j = Vector3Negate (pressureForceTerm j i) := by
  have hrneg : Vector3Subtract j.position i.position =
      Vector3Negate (Vector3Subtract i.position j.position) := by
    ext <;> simp [Vector3Subtract, Vector3Negate]
  have hW : W_spiky_Gradient (Vector3Subtract j.position i.position) sampleRadius =
      W_spiky_Gradient (Vector3Subtract i.position j.position) sampleRadius := by
    rw [hrneg]
    simp only [W_spiky_Gradient, Vector3Length_neg]
  have hnorm : Vector3Normalize (Vector3Subtract j.position i.position) =
      Vector3Negate (Vector3Normalize (Vector3Subtract i.position j.position)) := by
    rw [hrneg, Vector3Normalize_neg]
  simp only [pressureForceTerm, hnorm, hW]
  ext <;> simp only [Vector3Negate, Vector3Scale] <;> rw [hd, hp, hm] <;> ring

/-- Witness for C5 (amended): two distinct particles at distance 6 with
identical mass, density and pressure have exactly opposite pressure-force
terms. -/
theorem pressure_force_term_antisymmetric_witness :
    pressureForceTerm probeParticleA probeParticleC =
      Vector3Negate (pressureForceTerm probeParticleC probeParticleA) :=
  pressure_force_term_antisymmetric probeParticleA probeParticleC
    (by
      intro h
      have hx := congrArg (fun p => p.position.x) h
      simp only [probeParticleA, probeParticleC, Vector3Zero] at hx
      norm_num at hx)
    rfl rfl rfl

/-- Counterexample for C5 as stated: two distinct particles with equal
density and equal pressure but different masses (mass 1 and mass 2, 6 units
apart, inside the kernel support) have pressure-force terms that are NOT
negations of each other — the claim omits the mass hypothesis. -/
theorem pressure_force_term_not_antisymmetric_unequal_mass :
    probeParticleA ≠ probeParticleB ∧
    probeParticleA.density = probeParticleB.density ∧
    probeParticleA.pressure = probeParticleB.pressure ∧
    pressureForceTerm probeParticleA probeParticleB ≠
      Vector3Negate (pressureForceTerm probeParticleB probeParticleA) := by
  refine ⟨?_, rfl, rfl, ?_⟩
  · intro h
    have hx := congrArg (fun p => p.position.x) h
    simp only [probeParticleA, probeParticleB, Vector3Zero] at hx
    norm_num at hx
  · intro heq
    have hsub1 : Vector3Subtract Vector3Zero ⟨6, 0, 0⟩ = (⟨-6, 0, 0⟩ : Vec3) := by
      ext <;> simp [Vector3Subtract, Vector3Zero]
    have hsub2 : Vector3Subtract (⟨6, 0, 0⟩ : Vec3) Vector3Zero = (⟨6, 0, 0⟩ : Vec3) := by
      ext <;> simp [Vector3Subtract, Vector3Zero]
    have hL1 : Vector3Length (⟨-6, 0, 0⟩ : Vec3) = 6 := by
      show Real.sqrt ((-6) * (-6) + 0 * 0 + 0 * 0) = 6
      rw [show ((-6 : ℝ)) * (-6) + 0 * 0 + 0 * 0 = 6 * 6 by norm_num,
        Real.sqrt_mul_self (by norm_num : (0 : ℝ) ≤ 6)]
    have hL2 : Vector3Length (⟨6, 0, 0⟩ : Vec3) = 6 := by
      show Real.sqrt (6 * 6 + 0 * 0 + 0 * 0) = 6
      rw [show ((6 : ℝ)) * 6 + 0 * 0 + 0 * 0 = 6 * 6 by norm_num,
        Real.sqrt_mul_self (by norm_num : (0 : ℝ) ≤ 6)]
    have hn1 : Vector3Normalize (⟨-6, 0, 0⟩ : Vec3) = (⟨-1, 0, 0⟩ : Vec3) := by
      simp only [Vector3Normalize, hL1]
      rw [if_neg (by norm_num : ¬(6 : ℝ) = 0)]
      ext <;> simp [Vector3Scale]
    have hn2 : Vector3Normalize (⟨6, 0, 0⟩ : Vec3) = (⟨1, 0, 0⟩ : Vec3) := by
      simp only [Vector3Normalize, hL2]
      rw [if_neg (by norm_num : ¬(6 : ℝ) = 0)]
      ext <;> simp [Vector3Scale]
    have hW1 : W_spiky_Gradient (⟨-6, 0, 0⟩ : Vec3) sampleRadius =
        15 / (Real.pi * 12 ^ 6) * (-1) * 3 * 36 := by
      simp only [W_spiky_Gradient, hL1, sampleRadius, PI]
      rw [if_pos (by norm_num : (0 : ℝ) ≤ 6 ∧ (6 : ℝ) ≤ 12),
        show ((12 : ℝ) - 6) ^ 2 = 36 by norm_num]
    have hW2 : W_spiky_Gradient (⟨6, 0, 0⟩ : Vec3) sampleRadius =
        15 / (Real.pi * 12 ^ 6) * (-1) * 3 * 36 := by
      simp only [W_spiky_Gradient, hL2, sampleRadius, PI]
      rw [if_pos (by norm_num : (0 : ℝ) ≤ 6 ∧ (6 : ℝ) ≤ 12),
        show ((12 : ℝ) - 6) ^ 2 = 36 by norm_num]
    have hx := congrArg Vec3.x heq
    simp only [pressureForceTerm, probeParticleA, probeParticleB, hsub1, hsub2,
      hn1, hn2, hW1, hW2, Vector3Negate, Vector3Scale] at hx
    field_simp [Real.pi_ne_zero] at hx

end Fluid65
